import Mathlib

/-!
Verification of `src/portscanner.c` (a concurrent TCP port scanner)
against its natural-language specification.

The development is a shallow embedding:

* `scan_port` embeds the prober `scan_port` (portscanner.c:38-86).  The
  outcomes of the system calls it performs (`socket`, `connect`, `select`,
  `getsockopt`) are supplied by a `ProbeEnv` record; the function mirrors
  the C control flow over those outcomes and records the return value, the
  number of `close` calls, and the verbose output lines.
* `Step` embeds the dispatcher (`main`'s dispatch loop, portscanner.c:169-191,
  the worker's semaphore release, portscanner.c:95-101, and the drain loop,
  portscanner.c:193-196) as a small-step transition system over `DState`.
  The POSIX semaphore is a natural number; `sem_wait` is a guarded decrement
  (enabled only when the value is positive, matching its blocking semantics)
  and `sem_post` an increment.
* `main_model` embeds `main`'s configuration validation and early exits
  (portscanner.c:155-166) before the scan starts.
-/

namespace PortScanner

/-! ### Prober: `scan_port` (portscanner.c:38-86) -/

/-- Linux `errno` value for `EINPROGRESS`, the only errno `scan_port`
compares against (portscanner.c:62). -/
def EINPROGRESS : Nat := 115

/-- Linux `errno` value for `ECONNREFUSED` (used only to build concrete
probe environments in theorems). -/
def ECONNREFUSED : Nat := 111

/-- Outcomes of the system calls performed by one `scan_port` invocation.
`socketRet` is the return of `socket` (a file descriptor, or negative on
failure); `connectRet` the return of `connect`, with `connectErrno` the
value of `errno` when `connectRet` is negative; `selectRet` the return of
`select` (positive: the socket became writable; zero: timeout; negative:
failure); `soError` the pending socket error read by
`getsockopt(SO_ERROR)`. -/
structure ProbeEnv where
  socketRet : Int
  connectRet : Int
  connectErrno : Nat
  selectRet : Int
  soError : Nat
deriving DecidableEq, Repr

/-- Output lines `scan_port` can emit: `perror("socket")`
(portscanner.c:48), `printf("Port %d open\n", port)` (portscanner.c:74,84),
`printf("Port %d closed or timeout\n", port)` (portscanner.c:80). -/
inductive Msg where
  | perrorSocket
  | portOpen (port : Nat)
  | portClosedOrTimeout (port : Nat)
deriving DecidableEq, Repr

/-- Observable effects of one `scan_port` call: its return value (1 = open,
0 = otherwise, per the function's own doc comment), the number of `close`
calls performed on the socket, and the output emitted. -/
structure ProbeResult where
  ret : Nat
  closes : Nat
  output : List Msg
deriving DecidableEq, Repr

/-- Embedding of `scan_port` (portscanner.c:38-86).  The `fcntl` calls,
`inet_pton`, and the `timeout_sec` value written into `select`'s timeval
affect only which syscall outcome the environment will deliver, not the
control flow, so they leave no trace beyond the `ProbeEnv` fields. -/
def scan_port (env : ProbeEnv) (port : Nat) (timeout_sec : Int) (verbose : Bool) :
    ProbeResult :=
  if env.socketRet < 0 then
    -- portscanner.c:47-50: socket creation failed, no socket to close
    { ret := 0, closes := 0,
      output := if verbose then [Msg.perrorSocket] else [] }
  else
    if env.connectRet < 0 then
      if env.connectErrno = EINPROGRESS then
        if env.selectRet > 0 then
          if env.soError = 0 then
            -- portscanner.c:72-76
            { ret := 1, closes := 1,
              output := if verbose then [Msg.portOpen port] else [] }
          else
            -- pending error nonzero: fall through to portscanner.c:79-81
            { ret := 0, closes := 1,
              output := if verbose then [Msg.portClosedOrTimeout port] else [] }
        else
          -- select returned 0 (timeout) or negative (failure): portscanner.c:79-81
          { ret := 0, closes := 1,
            output := if verbose then [Msg.portClosedOrTimeout port] else [] }
      else
        -- connect failed with an errno other than EINPROGRESS: portscanner.c:79-81
        { ret := 0, closes := 1,
          output := if verbose then [Msg.portClosedOrTimeout port] else [] }
    else
      -- immediate connect success: portscanner.c:83-85
      { ret := 1, closes := 1,
        output := if verbose then [Msg.portOpen port] else [] }

/-- Probe environment of a refused connection: readiness observed, pending
socket error `ECONNREFUSED`. -/
def envRefused : ProbeEnv :=
  { socketRet := 3, connectRet := -1, connectErrno := EINPROGRESS,
    selectRet := 1, soError := ECONNREFUSED }

/-- Probe environment of a timed-out connection attempt: `select` returned 0. -/
def envTimedOut : ProbeEnv :=
  { socketRet := 3, connectRet := -1, connectErrno := EINPROGRESS,
    selectRet := 0, soError := 0 }

/-- Probe environment in which the wait itself failed: `select` returned -1. -/
def envSelectFailed : ProbeEnv :=
  { socketRet := 3, connectRet := -1, connectErrno := EINPROGRESS,
    selectRet := -1, soError := 0 }

/-! ### Dispatcher: `main`'s scan loop, worker, and drain
(portscanner.c:95-101, 169-196)

The dispatcher is embedded as a small-step transition system.  One state
records: `port`, the loop variable of `for (port = start_port; port <=
end_port; port++)`; `sem`, the value of the counting semaphore (created
with initial value `concurrency`, portscanner.c:162); `holding`, the port
for which the dispatcher currently holds a permit mid-iteration (between
`sem_wait` at portscanner.c:170 and the iteration's outcome), or `none`;
`inflight`, the ports whose worker threads have been created but have not
yet executed their `sem_post` (portscanner.c:98); `drained`, the number of
iterations of the final drain loop already executed (portscanner.c:194-196);
and append-only logs of dispatched, launched, skipped, and completed ports,
recording the observable history of the run. -/

/-- Why a launch attempt produced no probe: `malloc` returned NULL
(portscanner.c:173) or `pthread_create` failed (portscanner.c:184). -/
inductive FailReason where
  | mallocFail
  | threadCreateFail
deriving DecidableEq, Repr

/-- The scan parameters `main` feeds the dispatch loop: the validated
port range and the semaphore's initial value. -/
structure ScanCfg where
  startPort : Nat
  endPort : Nat
  concurrency : Nat
deriving DecidableEq, Repr

/-- Dispatcher state; see the section comment for the fields. -/
structure DState where
  port : Nat
  sem : Nat
  holding : Option Nat
  inflight : List Nat
  drained : Nat
  dispatched : List Nat
  launched : List Nat
  skipped : List (Nat × FailReason)
  completed : List Nat
deriving DecidableEq, Repr

/-- State at entry to the dispatch loop (portscanner.c:169): the loop
variable is `start_port`, the semaphore holds `concurrency` permits
(portscanner.c:162), nothing has been launched. -/
def initState (cfg : ScanCfg) : DState :=
  { port := cfg.startPort, sem := cfg.concurrency, holding := none,
    inflight := [], drained := 0, dispatched := [], launched := [],
    skipped := [], completed := [] }

/-- Effect of `sem_wait(semaphore)` at the top of an iteration
(portscanner.c:170): one permit is consumed and the dispatcher holds it for
the current port. -/
def acquireStep (s : DState) : DState :=
  { s with sem := s.sem - 1, holding := some s.port }

/-- Effect of a failed launch attempt (portscanner.c:173-177 when `malloc`
fails, portscanner.c:184-187 when `pthread_create` fails): the permit is
returned with `sem_post`, the failure is reported (`perror`), and the loop
moves to the next port; no probe is created. -/
def failStep (s : DState) (p : Nat) (r : FailReason) : DState :=
  { s with sem := s.sem + 1, holding := none, port := s.port + 1,
           dispatched := s.dispatched ++ [p],
           skipped := s.skipped ++ [(p, r)] }

/-- Effect of a successful `pthread_create` + `pthread_detach`
(portscanner.c:184, 189): the probe for `p` is now in flight, the permit
stays with it, and the loop moves to the next port without waiting. -/
def launchStep (s : DState) (p : Nat) : DState :=
  { s with holding := none, port := s.port + 1,
           dispatched := s.dispatched ++ [p],
           inflight := s.inflight ++ [p],
           launched := s.launched ++ [p] }

/-- Effect of a worker thread finishing (portscanner.c:95-101): `scan_port`
has returned (its socket already closed, see `scan_port_closes_socket`) and
the worker executes `sem_post`, returning the probe's permit. -/
def completeStep (s : DState) (p : Nat) : DState :=
  { s with inflight := s.inflight.erase p, sem := s.sem + 1,
           completed := s.completed ++ [p] }

/-- Effect of one iteration of the drain loop (portscanner.c:194-196):
`sem_wait` consumes one permit. -/
def drainStep (s : DState) : DState :=
  { s with sem := s.sem - 1, drained := s.drained + 1 }

/-- Small-step transition relation of the dispatcher.  `sem_wait`'s
blocking semantics are the guards `0 < s.sem`: the step is enabled only
when a permit is available.  `acquire` requires the loop condition
`port <= end_port`; the three iteration outcomes require the dispatcher to
hold a permit; `complete` may fire at any time a probe is in flight
(worker threads are detached and run concurrently, including during the
drain loop); `drain` requires the dispatch loop to have ended
(`port > end_port`) and fewer than `concurrency` drain iterations done. -/
inductive Step (cfg : ScanCfg) : DState → DState → Prop where
  | acquire (s : DState) (hh : s.holding = none) (hp : s.port ≤ cfg.endPort)
      (hs : 0 < s.sem) : Step cfg s (acquireStep s)
  | mallocFail (s : DState) (p : Nat) (hh : s.holding = some p) :
      Step cfg s (failStep s p FailReason.mallocFail)
  | threadCreateFail (s : DState) (p : Nat) (hh : s.holding = some p) :
      Step cfg s (failStep s p FailReason.threadCreateFail)
  | launch (s : DState) (p : Nat) (hh : s.holding = some p) :
      Step cfg s (launchStep s p)
  | complete (s : DState) (p : Nat) (hp : p ∈ s.inflight) :
      Step cfg s (completeStep s p)
  | drain (s : DState) (hh : s.holding = none) (hp : cfg.endPort < s.port)
      (hd : s.drained < cfg.concurrency) (hs : 0 < s.sem) :
      Step cfg s (drainStep s)

/-- States reachable from the start of the dispatch loop. -/
def Reachable (cfg : ScanCfg) : DState → Prop :=
  Relation.ReflTransGen (Step cfg) (initState cfg)

/-- Number of concurrency slots currently in use: probes in flight plus a
permit momentarily held by the dispatcher mid-iteration. -/
def slotsInUse (s : DState) : Nat :=
  s.inflight.length + (if s.holding.isSome then 1 else 0)

/-- Inductive invariant of the dispatcher, proved below to hold in every
reachable state. `conserve` is permit conservation for the semaphore;
`holdPort` says a held permit belongs to the current loop iteration;
`holdActive` says a permit is held only while the loop condition holds;
`portLo`/`portHi` bound the loop variable; `dispatchedEq` says the ports
dispatched so far are exactly `start_port, start_port+1, ...` in ascending
order; `dispatchedSplit` says every dispatched port was either launched or
skipped; `launchedSplit` says every launched probe is either in flight or
completed. -/
structure Inv (cfg : ScanCfg) (s : DState) : Prop where
  conserve : s.sem + slotsInUse s + s.drained = cfg.concurrency
  holdPort : ∀ p, s.holding = some p → p = s.port
  holdActive : ∀ p, s.holding = some p → s.port ≤ cfg.endPort
  portLo : cfg.startPort ≤ s.port
  portHi : cfg.startPort ≤ cfg.endPort + 1 → s.port ≤ cfg.endPort + 1
  dispatchedEq : s.dispatched = List.range' cfg.startPort (s.port - cfg.startPort)
  dispatchedSplit : (s.dispatched : Multiset Nat) =
    (s.launched : Multiset Nat) + ((s.skipped.map Prod.fst : List Nat) : Multiset Nat)
  launchedSplit : (s.launched : Multiset Nat) =
    (s.inflight : Multiset Nat) + (s.completed : Multiset Nat)

/-! ### Main: configuration validation and early exits
(portscanner.c:119-166) -/

/-- The configuration assembled by `main`'s option parsing
(portscanner.c:120-153): integer-valued fields come from `atoi`, so they
can be zero or negative. -/
structure Config where
  start_port : Int
  end_port : Int
  timeout_sec : Int
  concurrency : Int
  verbose : Bool
deriving DecidableEq, Repr

/-- What `main` does after option parsing and before the dispatch loop:
either an early `exit(EXIT_FAILURE)` or entry into the scan. -/
inductive MainBehavior where
  | earlyExit (code : Nat)
  | scan (cfg : ScanCfg)
deriving DecidableEq, Repr

/-- `true` when the run ends in an early exit before any probing. -/
def MainBehavior.stopsBeforeScan : MainBehavior → Bool
  | .earlyExit _ => true
  | .scan _ => false

/-- Embedding of `main` between option parsing and the dispatch loop
(portscanner.c:155-166).  The only validation is the port-range check at
portscanner.c:155; `EXIT_FAILURE` is 1.  `semOpenOk` is the environment's
verdict on `sem_open` (portscanner.c:162-166).  On success the scan starts
with the parsed range and concurrency (nonnegative by then for the range;
`Int.toNat` maps the validated values unchanged). -/
def main_model (c : Config) (semOpenOk : Bool) : MainBehavior :=
  if c.start_port > c.end_port ∨ c.start_port < 1 ∨ c.end_port > 65535 then
    MainBehavior.earlyExit 1
  else if !semOpenOk then
    MainBehavior.earlyExit 1
  else
    MainBehavior.scan
      { startPort := c.start_port.toNat, endPort := c.end_port.toNat,
        concurrency := c.concurrency.toNat }

/-! ### Concrete runs used in witnesses and counterexamples -/

/-- A small valid configuration: ports 1..2, concurrency 2. -/
def cfgW : ScanCfg := ⟨1, 2, 2⟩

/-- `cfgW` run: permit acquired for port 1. -/
def sW1 : DState := acquireStep (initState cfgW)

/-- `cfgW` run: probe for port 1 launched. -/
def sW2 : DState := launchStep sW1 1

/-- `cfgW` run: permit acquired for port 2 while probe 1 is still in flight. -/
def sW3 : DState := acquireStep sW2

/-- `cfgW` run: probe for port 2 launched; two probes in flight. -/
def sW4 : DState := launchStep sW3 2

/-- `cfgW` run: probe 1 completed. -/
def sW5 : DState := completeStep sW4 1

/-- `cfgW` run: probe 2 completed. -/
def sW6 : DState := completeStep sW5 2

/-- `cfgW` run: first drain iteration. -/
def sW7 : DState := drainStep sW6

/-- `cfgW` run: second drain iteration; the scan is fully drained. -/
def sW8 : DState := drainStep sW7

/-- A valid configuration (ports 1..2, concurrency 1) for a run in which
the task allocation for port 1 fails. -/
def cfgC : ScanCfg := ⟨1, 2, 1⟩

/-- `cfgC` run: permit acquired for port 1. -/
def sC1 : DState := acquireStep (initState cfgC)

/-- `cfgC` run: `malloc` fails for port 1; the permit is released and the
loop moves on — port 1 is never probed. -/
def sC2 : DState := failStep sC1 1 FailReason.mallocFail

/-- `cfgC` run: permit acquired for port 2. -/
def sC3 : DState := acquireStep sC2

/-- `cfgC` run: probe for port 2 launched. -/
def sC4 : DState := launchStep sC3 2

/-- `cfgC` run: probe 2 completed. -/
def sC5 : DState := completeStep sC4 2

/-- `cfgC` run: drained (1 permit = full concurrency); the scan is over. -/
def sC6 : DState := drainStep sC5

/-- A configuration with a zero per-port timeout and an otherwise valid
range: `-s 1 -e 10 -t 0 -c 50`. -/
def cZeroTimeout : Config :=
  { start_port := 1, end_port := 10, timeout_sec := 0, concurrency := 50,
    verbose := false }

/-- A configuration with a non-positive concurrency limit and an otherwise
valid range: `-s 1 -e 10 -t 1 -c 0`. -/
def cZeroConcurrency : Config :=
  { start_port := 1, end_port := 10, timeout_sec := 1, concurrency := 0,
    verbose := false }

/-! ### Theorems about the prober -/

/-- C3 (counterexample): the claim says refusal yields `Closed`, timeout
yields `Timeout` reported distinctly from `Closed`, and a failure of the
wait yields `Error` with the underlying cause — four distinct outcomes.  On
the code, a refused connection, a timed-out probe, and a failed `select`
produce bit-for-bit identical results even in verbose mode: return value 0
and the single message "Port 80 closed or timeout".  No `Error` outcome or
cause is ever surfaced. -/
theorem probe_outcomes_not_distinct :
    scan_port envRefused 80 1 true = scan_port envTimedOut 80 1 true ∧
    scan_port envTimedOut 80 1 true = scan_port envSelectFailed 80 1 true ∧
    scan_port envRefused 80 1 true =
      { ret := 0, closes := 1, output := [Msg.portClosedOrTimeout 80] } := by
  decide

/-- C3 (amended): `scan_port` classifies every probe into exactly two
outcomes, not four.  It returns 1 (open) precisely when the socket was
created and either `connect` succeeded immediately or `connect` reported
`EINPROGRESS`, `select` observed readiness, and the pending socket error is
zero; in every other case — refusal, timeout, `select` failure,
non-`EINPROGRESS` connect error, socket-creation failure — it returns 0,
with refusal, timeout, and `select` failure reported identically ("closed
or timeout") and no underlying cause. -/
theorem scan_port_two_outcomes (env : ProbeEnv) (port : Nat) (timeout_sec : Int)
    (verbose : Bool) :
    ((scan_port env port timeout_sec verbose).ret = 1 ↔
      0 ≤ env.socketRet ∧
        (0 ≤ env.connectRet ∨
          (env.connectRet < 0 ∧ env.connectErrno = EINPROGRESS ∧
            0 < env.selectRet ∧ env.soError = 0))) ∧
    ((scan_port env port timeout_sec verbose).ret = 1 ∨
      (scan_port env port timeout_sec verbose).ret = 0) := by
  unfold scan_port
  repeat' split
  all_goals simp_all

/-- C8: on every exit path of `scan_port` in which the socket was
successfully created (nonnegative descriptor) — immediate connect success,
refusal, timeout, select failure, and non-`EINPROGRESS` connect error — the
socket is closed exactly once before the probe returns. -/
theorem scan_port_closes_socket (env : ProbeEnv) (port : Nat) (timeout_sec : Int)
    (verbose : Bool) (h : 0 ≤ env.socketRet) :
    (scan_port env port timeout_sec verbose).closes = 1 := by
  unfold scan_port
  split <;> rename_i h1
  · omega
  · split
    · split
      · split
        · split <;> rfl
        · rfl
      · rfl
    · rfl

/-- C8 (witness): concrete evaluation on a successfully created socket. -/
theorem scan_port_closes_socket_witness :
    (0 : Int) ≤ envTimedOut.socketRet ∧
      (scan_port envTimedOut 443 1 false).closes = 1 :=
  ⟨by decide, scan_port_closes_socket envTimedOut 443 1 false (by decide)⟩

/-! ### The dispatcher invariant -/

/-- The invariant holds at the start of the dispatch loop. -/
theorem inv_init (cfg : ScanCfg) : Inv cfg (initState cfg) := by
  refine ⟨?_, ?_, ?_, ?_, ?_, ?_, ?_, ?_⟩ <;> simp [initState, slotsInUse]

/-- `sem_wait` at the top of an iteration (portscanner.c:170) preserves the
invariant. -/
theorem inv_acquire {cfg : ScanCfg} {s : DState} (hh : s.holding = none)
    (hp : s.port ≤ cfg.endPort) (hs : 0 < s.sem) (hi : Inv cfg s) :
    Inv cfg (acquireStep s) := by
  obtain ⟨hc, hhp, hha, hlo, hhi, hde, hds, hls⟩ := hi
  refine ⟨?_, ?_, ?_, ?_, ?_, ?_, ?_, ?_⟩
  · simp only [slotsInUse, hh, Option.isSome_none, acquireStep,
      Option.isSome_some] at hc ⊢
    simp only [Bool.false_eq_true, if_false, if_true] at hc ⊢
    omega
  · intro q hq
    simp only [acquireStep, Option.some.injEq] at hq
    simp [acquireStep, hq]
  · intro q _
    simpa [acquireStep] using hp
  · simpa [acquireStep] using hlo
  · simpa [acquireStep] using hhi
  · simpa [acquireStep] using hde
  · simpa [acquireStep] using hds
  · simpa [acquireStep] using hls

/-- A failed launch attempt — `malloc` returning NULL (portscanner.c:173-177)
or `pthread_create` failing (portscanner.c:184-187) — preserves the
invariant: the permit goes back with `sem_post` and the loop advances. -/
theorem inv_fail {cfg : ScanCfg} {s : DState} {p : Nat} {r : FailReason}
    (hh : s.holding = some p) (hi : Inv cfg s) : Inv cfg (failStep s p r) := by
  obtain ⟨hc, hhp, hha, hlo, hhi, hde, hds, hls⟩ := hi
  have hpp : p = s.port := hhp p hh
  have hple : s.port ≤ cfg.endPort := hha p hh
  refine ⟨?_, ?_, ?_, ?_, ?_, ?_, ?_, ?_⟩
  · simp only [slotsInUse, hh, Option.isSome_some, failStep,
      Option.isSome_none] at hc ⊢
    simp only [Bool.false_eq_true, if_false, if_true] at hc ⊢
    omega
  · intro q hq
    simp [failStep] at hq
  · intro q hq
    simp [failStep] at hq
  · simp only [failStep]
    omega
  · simp only [failStep]
    omega
  · simp only [failStep]
    subst hpp
    rw [hde]
    have h1 : s.port + 1 - cfg.startPort = (s.port - cfg.startPort) + 1 := by
      omega
    have h2 : cfg.startPort + (s.port - cfg.startPort) = s.port := by
      omega
    rw [h1, List.range'_1_concat, h2]
  · simp only [failStep, List.map_append, List.map_cons, List.map_nil]
    simp only [← Multiset.coe_add]
    rw [hds, add_assoc]
  · simpa [failStep] using hls

/-- A successful `pthread_create`/`pthread_detach` (portscanner.c:184,189)
preserves the invariant: the permit moves from the dispatcher to the new
in-flight probe. -/
theorem inv_launch {cfg : ScanCfg} {s : DState} {p : Nat}
    (hh : s.holding = some p) (hi : Inv cfg s) : Inv cfg (launchStep s p) := by
  obtain ⟨hc, hhp, hha, hlo, hhi, hde, hds, hls⟩ := hi
  have hpp : p = s.port := hhp p hh
  have hple : s.port ≤ cfg.endPort := hha p hh
  refine ⟨?_, ?_, ?_, ?_, ?_, ?_, ?_, ?_⟩
  · simp only [slotsInUse, hh, Option.isSome_some, launchStep,
      Option.isSome_none, List.length_append, List.length_cons,
      List.length_nil] at hc ⊢
    simp only [Bool.false_eq_true, if_false, if_true] at hc ⊢
    omega
  · intro q hq
    simp [launchStep] at hq
  · intro q hq
    simp [launchStep] at hq
  · simp only [launchStep]
    omega
  · simp only [launchStep]
    omega
  · simp only [launchStep]
    subst hpp
    rw [hde]
    have h1 : s.port + 1 - cfg.startPort = (s.port - cfg.startPort) + 1 := by
      omega
    have h2 : cfg.startPort + (s.port - cfg.startPort) = s.port := by
      omega
    rw [h1, List.range'_1_concat, h2]
  · simp only [launchStep]
    simp only [← Multiset.coe_add]
    rw [hds]
    abel
  · simp only [launchStep]
    simp only [← Multiset.coe_add]
    rw [hls]
    abel

/-- A worker's `sem_post` on probe completion (portscanner.c:95-101)
preserves the invariant: the probe leaves the in-flight set and its permit
returns to the semaphore. -/
theorem inv_complete {cfg : ScanCfg} {s : DState} {p : Nat}
    (hp : p ∈ s.inflight) (hi : Inv cfg s) : Inv cfg (completeStep s p) := by
  obtain ⟨hc, hhp, hha, hlo, hhi, hde, hds, hls⟩ := hi
  refine ⟨?_, ?_, ?_, ?_, ?_, ?_, ?_, ?_⟩
  · simp only [slotsInUse, completeStep] at hc ⊢
    have h1 : (s.inflight.erase p).length = s.inflight.length - 1 :=
      List.length_erase_of_mem hp
    have h2 : 0 < s.inflight.length := List.length_pos_of_mem hp
    omega
  · intro q hq
    simp only [completeStep] at hq ⊢
    exact hhp q hq
  · intro q hq
    simp only [completeStep] at hq ⊢
    exact hha q hq
  · simpa [completeStep] using hlo
  · simpa [completeStep] using hhi
  · simpa [completeStep] using hde
  · simpa [completeStep] using hds
  · simp only [completeStep]
    have hmem : p ∈ (s.inflight : Multiset Nat) := Multiset.mem_coe.mpr hp
    simp only [← Multiset.coe_add, ← Multiset.coe_erase, Multiset.coe_singleton]
    rw [hls]
    have h3 : (s.inflight : Multiset Nat) =
        Multiset.erase (s.inflight : Multiset Nat) p + {p} := by
      rw [add_comm, Multiset.singleton_add, Multiset.cons_erase hmem]
    conv_lhs => rw [h3]
    abel

/-- One `sem_wait` of the drain loop (portscanner.c:194-196) preserves the
invariant. -/
theorem inv_drain {cfg : ScanCfg} {s : DState} (hs : 0 < s.sem)
    (hi : Inv cfg s) : Inv cfg (drainStep s) := by
  obtain ⟨hc, hhp, hha, hlo, hhi, hde, hds, hls⟩ := hi
  refine ⟨?_, ?_, ?_, ?_, ?_, ?_, ?_, ?_⟩
  · simp only [slotsInUse, drainStep] at hc ⊢
    omega
  · intro q hq
    simp only [drainStep] at hq ⊢
    exact hhp q hq
  · intro q hq
    simp only [drainStep] at hq ⊢
    exact hha q hq
  · simpa [drainStep] using hlo
  · simpa [drainStep] using hhi
  · simpa [drainStep] using hde
  · simpa [drainStep] using hds
  · simpa [drainStep] using hls

/-- Every dispatcher step preserves the invariant. -/
theorem inv_step {cfg : ScanCfg} {s t : DState} (h : Step cfg s t)
    (hi : Inv cfg s) : Inv cfg t := by
  cases h with
  | acquire hh hp hs => exact inv_acquire hh hp hs hi
  | mallocFail p hh => exact inv_fail hh hi
  | threadCreateFail p hh => exact inv_fail hh hi
  | launch p hh => exact inv_launch hh hi
  | complete p hp => exact inv_complete hp hi
  | drain hh hp hd hs => exact inv_drain hs hi

/-- The invariant holds in every reachable state of the dispatcher. -/
theorem inv_reachable {cfg : ScanCfg} {s : DState} (h : Reachable cfg s) :
    Inv cfg s := by
  induction h with
  | refl => exact inv_init cfg
  | tail _ hstep ih => exact inv_step hstep ih

/-- C10: with the verbose flag off, a probe emits no output at all — the
open, closed-or-timeout, and socket-failure messages are all guarded by
`verbose`, so a non-verbose probe surfaces nothing per port. -/
theorem scan_port_silent_when_not_verbose (env : ProbeEnv) (port : Nat)
    (timeout_sec : Int) :
    (scan_port env port timeout_sec false).output = [] := by
  unfold scan_port
  split
  · rfl
  · split
    · split
      · split
        · split <;> rfl
        · rfl
      · rfl
    · rfl

/-! ### Reachability of the concrete runs -/

/-- The `cfgW` run reaches `sW1`. -/
theorem reach_sW1 : Reachable cfgW sW1 :=
  Relation.ReflTransGen.single (Step.acquire _ rfl (by decide) (by decide))

/-- The `cfgW` run reaches `sW2`. -/
theorem reach_sW2 : Reachable cfgW sW2 :=
  Relation.ReflTransGen.tail reach_sW1 (Step.launch _ 1 rfl)

/-- The `cfgW` run reaches `sW3`. -/
theorem reach_sW3 : Reachable cfgW sW3 :=
  Relation.ReflTransGen.tail reach_sW2 (Step.acquire _ rfl (by decide) (by decide))

/-- The `cfgW` run reaches `sW4`. -/
theorem reach_sW4 : Reachable cfgW sW4 :=
  Relation.ReflTransGen.tail reach_sW3 (Step.launch _ 2 rfl)

/-- The `cfgW` run reaches `sW5`. -/
theorem reach_sW5 : Reachable cfgW sW5 :=
  Relation.ReflTransGen.tail reach_sW4 (Step.complete _ 1 (by decide))

/-- The `cfgW` run reaches `sW6`. -/
theorem reach_sW6 : Reachable cfgW sW6 :=
  Relation.ReflTransGen.tail reach_sW5 (Step.complete _ 2 (by decide))

/-- The `cfgW` run reaches `sW7`. -/
theorem reach_sW7 : Reachable cfgW sW7 :=
  Relation.ReflTransGen.tail reach_sW6
    (Step.drain _ rfl (by decide) (by decide) (by decide))

/-- The `cfgW` run reaches the fully drained state `sW8`. -/
theorem reach_sW8 : Reachable cfgW sW8 :=
  Relation.ReflTransGen.tail reach_sW7
    (Step.drain _ rfl (by decide) (by decide) (by decide))

/-- The `cfgC` run (with the allocation failure at port 1) reaches `sC6`. -/
theorem reach_sC6 : Reachable cfgC sC6 := by
  have h1 : Step cfgC (initState cfgC) sC1 :=
    Step.acquire _ rfl (by decide) (by decide)
  have h2 : Step cfgC sC1 sC2 := Step.mallocFail _ 1 rfl
  have h3 : Step cfgC sC2 sC3 := Step.acquire _ rfl (by decide) (by decide)
  have h4 : Step cfgC sC3 sC4 := Step.launch _ 2 rfl
  have h5 : Step cfgC sC4 sC5 := Step.complete _ 2 (by decide)
  have h6 : Step cfgC sC5 sC6 :=
    Step.drain _ rfl (by decide) (by decide) (by decide)
  exact Relation.ReflTransGen.head h1 (Relation.ReflTransGen.head h2
    (Relation.ReflTransGen.head h3 (Relation.ReflTransGen.head h4
      (Relation.ReflTransGen.head h5 (Relation.ReflTransGen.single h6)))))

/-! ### Theorems about the dispatcher -/

/-- C1: in every reachable state of a run, the number of concurrency slots
in use (in-flight probes plus a permit held mid-iteration by the
dispatcher) never exceeds the configured limit, and permits are conserved:
semaphore value + slots in use + drained permits always equals
`concurrency`, so every slot acquired before a probe starts is released
exactly once when that probe terminates (by completion, `malloc` failure,
or `pthread_create` failure) and the count never goes negative (it lives in
`Nat`, with `sem_wait` enabled only on a positive semaphore). -/
theorem concurrency_slots_bounded (cfg : ScanCfg) (s : DState)
    (h : Reachable cfg s) :
    slotsInUse s ≤ cfg.concurrency ∧
      s.sem + slotsInUse s + s.drained = cfg.concurrency := by
  have hc := (inv_reachable h).conserve
  exact ⟨by omega, hc⟩

/-- C1 (witness): the bound evaluated on the concrete state `sW4` of the
`cfgW` run, where both slots are in use. -/
theorem concurrency_slots_bounded_witness :
    slotsInUse sW4 ≤ cfgW.concurrency ∧
      sW4.sem + slotsInUse sW4 + sW4.drained = cfgW.concurrency :=
  concurrency_slots_bounded cfgW sW4 reach_sW4

/-- C2: once the drain loop has acquired all `concurrency` permits
(portscanner.c:193-196), no probe is outstanding: the in-flight set is
empty, the dispatcher holds no permit, and every launched probe has
completed (the multiset of completed ports equals the multiset of launched
ports) — so the process never returns from the scan with an in-flight
probe, hence (by `scan_port_closes_socket`) no in-flight socket. -/
theorem drain_barrier (cfg : ScanCfg) (s : DState) (h : Reachable cfg s)
    (hd : s.drained = cfg.concurrency) :
    s.inflight = [] ∧ s.holding = none ∧
      (s.completed : Multiset Nat) = (s.launched : Multiset Nat) := by
  have hi := inv_reachable h
  have hc := hi.conserve
  simp only [slotsInUse] at hc
  rcases hq : s.holding with _ | q
  · rw [hq] at hc
    simp only [Option.isSome_none, Bool.false_eq_true, if_false] at hc
    have hnil : s.inflight = [] := List.length_eq_zero.mp (by omega)
    refine ⟨hnil, rfl, ?_⟩
    have hls := hi.launchedSplit
    rw [hnil] at hls
    simpa using hls.symm
  · rw [hq] at hc
    simp only [Option.isSome_some, if_true] at hc
    omega

/-- C2 (witness): the drain barrier evaluated on the fully drained state
`sW8` of the `cfgW` run. -/
theorem drain_barrier_witness :
    sW8.inflight = [] ∧ sW8.holding = none ∧
      (sW8.completed : Multiset Nat) = (sW8.launched : Multiset Nat) :=
  drain_barrier cfgW sW8 reach_sW8 (by decide)

/-- C7: when a launch attempt fails mid-iteration (for either reason,
`malloc` or `pthread_create`), the dispatcher takes exactly the transition
the code prescribes: the slot it had acquired is released (`sem_post`,
semaphore back up by one), the failure is recorded, the loop advances to
the next port with the in-flight probes untouched, and — whenever ports
remain — the next iteration's `sem_wait` is immediately enabled, so a
single launch failure neither stalls the loop nor blocks the remaining
ports. -/
theorem launch_failure_releases_and_continues (cfg : ScanCfg) (s : DState)
    (p : Nat) (r : FailReason) (hh : s.holding = some p) :
    Step cfg s (failStep s p r) ∧
      (failStep s p r).sem = s.sem + 1 ∧
      (failStep s p r).holding = none ∧
      (failStep s p r).port = s.port + 1 ∧
      (p, r) ∈ (failStep s p r).skipped ∧
      (failStep s p r).inflight = s.inflight ∧
      ((failStep s p r).port ≤ cfg.endPort →
        Step cfg (failStep s p r) (acquireStep (failStep s p r))) := by
  refine ⟨?_, rfl, rfl, rfl, ?_, rfl, ?_⟩
  · cases r with
    | mallocFail => exact Step.mallocFail s p hh
    | threadCreateFail => exact Step.threadCreateFail s p hh
  · simp [failStep]
  · intro hle
    exact Step.acquire _ rfl hle (by simp [failStep])

/-- C7 (witness): the failure transition evaluated at the concrete state
`sW1` (permit held for port 1) with a `malloc` failure; port 2 remains, and
the follow-up acquire is enabled. -/
theorem launch_failure_releases_and_continues_witness :
    Step cfgW sW1 (failStep sW1 1 FailReason.mallocFail) ∧
      (failStep sW1 1 FailReason.mallocFail).sem = sW1.sem + 1 ∧
      (failStep sW1 1 FailReason.mallocFail).holding = none ∧
      (failStep sW1 1 FailReason.mallocFail).port = sW1.port + 1 ∧
      (1, FailReason.mallocFail) ∈ (failStep sW1 1 FailReason.mallocFail).skipped ∧
      (failStep sW1 1 FailReason.mallocFail).inflight = sW1.inflight ∧
      ((failStep sW1 1 FailReason.mallocFail).port ≤ cfgW.endPort →
        Step cfgW (failStep sW1 1 FailReason.mallocFail)
          (acquireStep (failStep sW1 1 FailReason.mallocFail))) :=
  launch_failure_releases_and_continues cfgW sW1 1 FailReason.mallocFail rfl

/-- C9: in every reachable state, the ports dispatched so far are exactly
`start_port, start_port + 1, ...` in ascending order (the loop enumerates
the range ascending), and whenever the dispatcher holds a permit for a
port, launching that port's probe is enabled with no condition on the
probes already in flight: the launch transition advances the loop to the
next port while the new probe is added to the in-flight set — the
dispatcher waits only for a free slot, never for a probe to finish. -/
theorem dispatch_ascending_and_async (cfg : ScanCfg) (s : DState)
    (h : Reachable cfg s) :
    s.dispatched = List.range' cfg.startPort (s.port - cfg.startPort) ∧
      ∀ p, s.holding = some p →
        Step cfg s (launchStep s p) ∧
          (launchStep s p).port = s.port + 1 ∧
          (launchStep s p).inflight = s.inflight ++ [p] := by
  refine ⟨(inv_reachable h).dispatchedEq, ?_⟩
  intro p hh
  exact ⟨Step.launch s p hh, rfl, rfl⟩

/-- C9 (witness): evaluated at the concrete state `sW3`, where the
dispatcher holds the permit for port 2 while the probe of port 1 is still
in flight: the dispatched list is the ascending `[1]` and the launch of
port 2 is enabled without probe 1 having completed. -/
theorem dispatch_ascending_and_async_witness :
    sW3.dispatched = List.range' cfgW.startPort (sW3.port - cfgW.startPort) ∧
      Step cfgW sW3 (launchStep sW3 2) ∧
      (launchStep sW3 2).port = sW3.port + 1 ∧
      (launchStep sW3 2).inflight = sW3.inflight ++ [2] := by
  obtain ⟨h1, h2⟩ := dispatch_ascending_and_async cfgW sW3 reach_sW3
  obtain ⟨h3, h4, h5⟩ := h2 2 rfl
  exact ⟨h1, h3, h4, h5⟩

/-- C5 (counterexample): a full run over ports 1..2 (concurrency 1) in
which the task allocation for port 1 fails produces, at the drained end of
the scan, exactly one completed probe — not `end_port − start_port + 1 = 2`
results — and port 1 appears zero times, contradicting the claim that each
port in the range yields exactly one `PortResult` even when a task
allocation fails (the code's `continue` at portscanner.c:176 skips the port
entirely; only `perror` output is produced for it). -/
theorem alloc_failure_drops_port_result :
    Reachable cfgC sC6 ∧ sC6.drained = cfgC.concurrency ∧
      cfgC.endPort < sC6.port ∧
      sC6.completed.length = 1 ∧
      cfgC.endPort - cfgC.startPort + 1 = 2 ∧
      sC6.completed.count 1 = 0 :=
  ⟨reach_sC6, by decide, by decide, by decide, by decide, by decide⟩

/-- C5 (amended): at the drained end of a run over a valid range, the
completed probes together with the skipped ports (those whose `malloc` or
`pthread_create` failed) account for the inclusive range exactly once
each; in particular when no launch failure occurred, exactly one probe
completed per port of `[start_port, end_port]`, each port exactly once.
Ports with launch failures produce no probe/result, only an error report. -/
theorem one_result_per_launched_port (cfg : ScanCfg) (s : DState)
    (h : Reachable cfg s) (hv : cfg.startPort ≤ cfg.endPort)
    (hdone : cfg.endPort < s.port) (hd : s.drained = cfg.concurrency) :
    (s.completed : Multiset Nat) + ((s.skipped.map Prod.fst : List Nat) : Multiset Nat) =
        ((List.range' cfg.startPort (cfg.endPort + 1 - cfg.startPort) : List Nat) : Multiset Nat) ∧
      (s.skipped = [] → ∀ q, s.completed.count q =
        if cfg.startPort ≤ q ∧ q ≤ cfg.endPort then 1 else 0) := by
  have hi := inv_reachable h
  have hhi := hi.portHi (by omega)
  have hport : s.port = cfg.endPort + 1 := by omega
  have hc := hi.conserve
  simp only [slotsInUse] at hc
  rcases hq : s.holding with _ | q
  swap
  · rw [hq] at hc
    simp only [Option.isSome_some, if_true] at hc
    omega
  rw [hq] at hc
  simp only [Option.isSome_none, Bool.false_eq_true, if_false] at hc
  have hnil : s.inflight = [] := List.length_eq_zero.mp (by omega)
  have hls := hi.launchedSplit
  rw [hnil] at hls
  simp only [Multiset.coe_nil, zero_add] at hls
  have hds := hi.dispatchedSplit
  rw [hi.dispatchedEq] at hds
  rw [hport] at hds
  rw [hls] at hds
  refine ⟨hds.symm, ?_⟩
  intro hsk q
  rw [hsk] at hds
  simp only [List.map_nil, Multiset.coe_nil, add_zero] at hds
  have hcount : s.completed.count q =
      (List.range' cfg.startPort (cfg.endPort + 1 - cfg.startPort)).count q := by
    have hcg := congrArg (Multiset.count q) hds
    simpa [Multiset.coe_count] using hcg.symm
  by_cases hq2 : cfg.startPort ≤ q ∧ q ≤ cfg.endPort
  · rw [if_pos hq2, hcount]
    exact List.count_eq_one_of_mem (List.nodup_range' _ _)
      (List.mem_range'_1.mpr ⟨hq2.1, by omega⟩)
  · rw [if_neg hq2, hcount]
    refine List.count_eq_zero_of_not_mem (fun hmem => hq2 ?_)
    obtain ⟨ha, hb⟩ := List.mem_range'_1.mp hmem
    exact ⟨ha, by omega⟩

/-- C5 amended (witness): evaluated on the failure-free `cfgW` run, fully
drained at `sW8`: the completed probes cover ports 1..2 exactly once each,
and port 3 zero times. -/
theorem one_result_per_launched_port_witness :
    ((sW8.completed : Multiset Nat) + ((sW8.skipped.map Prod.fst : List Nat) : Multiset Nat) =
        ((List.range' cfgW.startPort (cfgW.endPort + 1 - cfgW.startPort) : List Nat) : Multiset Nat)) ∧
      sW8.completed.count 1 = 1 ∧ sW8.completed.count 2 = 1 ∧
      sW8.completed.count 3 = 0 := by
  obtain ⟨h1, h2⟩ :=
    one_result_per_launched_port cfgW sW8 reach_sW8 (by decide) (by decide)
      (by decide)
  exact ⟨h1, (h2 rfl 1).trans (by decide), (h2 rfl 2).trans (by decide),
    (h2 rfl 3).trans (by decide)⟩

/-! ### Theorems about `main`'s validation -/

/-- C6: every configuration whose port range is invalid (`start > end`,
`start < 1`, or `end > 65535`) makes `main` print an error and
`exit(EXIT_FAILURE)` (exit code 1, nonzero) at portscanner.c:155-158,
before the semaphore is opened, before any socket is created, and before
any probe is launched — the run never reaches the scan. -/
theorem invalid_range_exits_before_scan (c : Config) (semOpenOk : Bool)
    (h : c.start_port > c.end_port ∨ c.start_port < 1 ∨ c.end_port > 65535) :
    main_model c semOpenOk = MainBehavior.earlyExit 1 := by
  unfold main_model
  rw [if_pos h]

/-- C6 (witness): the spec's own example, start=100 end=50, exits early
with code 1. -/
theorem invalid_range_exits_before_scan_witness :
    main_model
        { start_port := 100, end_port := 50, timeout_sec := 1,
          concurrency := 50, verbose := false } true =
      MainBehavior.earlyExit 1 :=
  invalid_range_exits_before_scan _ true (Or.inl (by decide))

/-- C4 (counterexample): a configuration with a zero per-port timeout and
one with a zero (non-positive) concurrency limit are not rejected: with a
valid port range the program proceeds into the scan (portscanner.c has no
validation of `timeout_sec` or `concurrency`), contradicting the claim
that such configurations cause a fatal non-zero exit before probing. -/
theorem nonpositive_timeout_or_concurrency_not_rejected :
    cZeroTimeout.timeout_sec ≤ 0 ∧
      main_model cZeroTimeout true = MainBehavior.scan ⟨1, 10, 50⟩ ∧
      cZeroConcurrency.concurrency ≤ 0 ∧
      main_model cZeroConcurrency true = MainBehavior.scan ⟨1, 10, 0⟩ := by
  refine ⟨by decide, by decide, by decide, by decide⟩

/-- C4 (amended): the only configuration validation is the port-range
check: `main` stops with a fatal non-zero exit before any probing exactly
when the port range is invalid or `sem_open` fails; a zero or negative
timeout and a non-positive concurrency limit pass validation and the scan
proceeds with them unchanged. -/
theorem early_exit_iff_range_invalid_or_sem_failure (c : Config)
    (semOpenOk : Bool) :
    (main_model c semOpenOk).stopsBeforeScan = true ↔
      ((c.start_port > c.end_port ∨ c.start_port < 1 ∨ c.end_port > 65535) ∨
        semOpenOk = false) := by
  unfold main_model
  split
  · simp_all [MainBehavior.stopsBeforeScan]
  · split <;> simp_all [MainBehavior.stopsBeforeScan]

end PortScanner
